import Mathlib

/-!
Shallow embedding of the classification and confidence engine of
`prtool` (files `prtool/classifier.py` and `prtool/config.py`).

Modelling conventions:
* Python `float` values are modelled as exact rationals (`ℚ`); every literal
  that appears in the source (0.52, 1.45, ...) is the corresponding decimal
  rational.  `round(x, 3)` is modelled as exact round-half-to-even on
  thousandths, matching CPython rounding on the ideal decimal value.
* Python `str` is `String`; `x in s` (substring test), `startswith`,
  `endswith`, `strip`, `lower` are implemented structurally on the character
  list so that all definitions evaluate inside the kernel.  Lowercasing is
  ASCII lowercasing (all keyword tables in the source are ASCII).
* A Python dict of features is modelled as a record of `Option` fields: a
  `none` field is a missing key.  `d.get(k, default)` is `Option.getD`;
  `d[k]` is a fallible access returning `Except String` whose error is the
  `KeyError` naming the key, sequenced in the source evaluation order.
* `datetime.now` is the only impure input of `classify`; it is passed in as
  an explicit `now : String` argument used solely for the `classified_at`
  field.
-/

-- Batteries ships the core rational operations `[irreducible]`, which only
-- affects elaborator-side reduction (the kernel always may unfold them).
-- Restore the default so that concrete engine runs evaluate with `decide`.
attribute [local semireducible] Rat.ofScientific Rat.add Rat.mul Rat.sub Rat.inv

namespace Prtool

/-- ASCII lowercase of one character, as CPython does for the ASCII range. -/
def lowerChar (c : Char) : Char :=
  if 65 ≤ c.toNat ∧ c.toNat ≤ 90 then Char.ofNat (c.toNat + 32) else c

/-- Python `s.lower()` (ASCII fragment). -/
def strLower (s : String) : String := ⟨s.data.map lowerChar⟩

/-- Python `s.strip()`: remove leading and trailing whitespace. -/
def strTrim (s : String) : String :=
  ⟨((s.data.dropWhile Char.isWhitespace).reverse.dropWhile Char.isWhitespace).reverse⟩

/-- Is the first list a prefix of the second (boolean, structural)? -/
def isPrefixCB : List Char → List Char → Bool
  | [], _ => true
  | _ :: _, [] => false
  | a :: as, b :: bs => a == b && isPrefixCB as bs

/-- Does `pat` occur somewhere in `s` (list form)? -/
def containsCB (pat : List Char) : List Char → Bool
  | [] => isPrefixCB pat []
  | c :: rest => isPrefixCB pat (c :: rest) || containsCB pat rest

/-- Python `pat in s` substring containment. -/
def strContains (s pat : String) : Bool := containsCB pat.data s.data

/-- Python `s.startswith(pre)`. -/
def strStartsWith (s pre : String) : Bool := isPrefixCB pre.data s.data

/-- Python `s.endswith(suf)`. -/
def strEndsWith (s suf : String) : Bool := isPrefixCB suf.data.reverse s.data.reverse

/-- Python `len(s)`: the number of characters. -/
def strLen (s : String) : Nat := s.data.length

/-- Strict lexicographic order on character lists (code-point order). -/
def charListLt : List Char → List Char → Bool
  | [], [] => false
  | [], _ :: _ => true
  | _ :: _, [] => false
  | a :: as, b :: bs => if a < b then true else if b < a then false else charListLt as bs

/-- Python `a < b` on strings (code-point lexicographic). -/
def strLtB (a b : String) : Bool := charListLt a.data b.data

/-- Insert into an ascending-sorted string list, before the first strictly
larger element (stable ascending insertion). -/
def insertAsc (x : String) : List String → List String
  | [] => [x]
  | y :: ys => if strLtB y x then y :: insertAsc x ys else x :: y :: ys

/-- Stable ascending sort of strings, as Python `sorted`. -/
def sortAsc : List String → List String
  | [] => []
  | x :: xs => insertAsc x (sortAsc xs)

/-- Collapse adjacent duplicates of a sorted list. -/
def collapseAdj : List String → List String
  | [] => []
  | [x] => [x]
  | x :: y :: rest => if x = y then collapseAdj (y :: rest) else x :: collapseAdj (y :: rest)

/-- Python `sorted(set(l))`: the sorted list of distinct elements. -/
def sortedUnique (l : List String) : List String := collapseAdj (sortAsc l)

/-- Python `" ".join`-style interleaving with a separator. -/
def joinSep (sep : String) : List String → String
  | [] => ""
  | [x] => x
  | x :: y :: rest => x ++ sep ++ joinSep sep (y :: rest)

/-- Round half to even to an integer (CPython `round` tie behaviour). -/
def roundHalfEven (y : ℚ) : ℤ :=
  let f := y.floor
  let r := y - (f : ℚ)
  if r < 1/2 then f
  else if 1/2 < r then f + 1
  else if f % 2 = 0 then f else f + 1

/-- Python `round(x, 3)` on the ideal decimal value. -/
def pyRound3 (x : ℚ) : ℚ := (roundHalfEven (x * 1000) : ℚ) / 1000

/-- Python `int(x)` on a float: truncate toward zero. -/
def pyInt (x : ℚ) : ℤ := if 0 ≤ x then x.floor else x.ceil

/-! ## Data model (`prtool/classifier.py`, `prtool/config.py`) -/

/-- `ClassificationConfig` (classifier.py lines 20-24): a frozen dataclass of
three thresholds.  The source performs no validation at construction time;
the constructor is total, exactly as the dataclass-generated initializer. -/
structure ClassificationConfig where
  infra_strong_threshold : ℚ
  infra_weak_threshold : ℚ
  needs_review_threshold : ℚ
deriving DecidableEq, Repr

/-- The default `needs_review_threshold = 0.75` of the dataclass. -/
def ClassificationConfig.mkDefault (strong weak : ℚ) : ClassificationConfig :=
  ⟨strong, weak, 0.75⟩

def CLASSIFIER_VERSION : String := "v2.8"

def PR_TYPES : List String :=
  ["feature", "bugfix", "refactor", "test-only", "docs-only", "chore", "perf-security", "infra"]

/-- A merge-request record as consumed by the classifier: the dict keys read
by the source (`title`, `description`, `labels`, `source_branch`,
`target_branch`).  `none` models an absent or `None` entry. -/
structure MergeRequest where
  title : Option String
  description : Option String
  labels : List String
  source_branch : Option String
  target_branch : Option String
deriving DecidableEq, Repr

/-- One changed-file dict: the keys `new_path` / `old_path` the source reads. -/
structure FileEntry where
  new_path : Option String
  old_path : Option String
deriving DecidableEq, Repr

/-- The feature mapping consumed by the engine.  Every field the source ever
reads is listed; `none` models a missing key. -/
structure Features where
  churn : Option ℚ
  files_changed : Option ℚ
  commit_count : Option ℚ
  review_comment_count : Option ℚ
  review_thread_count : Option ℚ
  unresolved_thread_count : Option ℚ
  pipeline_failed_count : Option ℚ
  infra_signal_score : Option ℚ
  infra_signal_level : Option String
  docs_file_ratio : Option ℚ
  test_file_ratio : Option ℚ
  code_file_ratio : Option ℚ
  dep_only_change : Option Bool
  has_description : Option Bool
  label_count : Option ℚ
  commit_message_text : Option String
  matched_infra_tickets : Option (List String)
  matched_infra_keywords : Option (List String)
  matched_infra_labels : Option (List String)
deriving DecidableEq, Repr

/-- `_safe_text(v) = str(v or "").lower()` for an optional string. -/
def safe_text (v : Option String) : String := strLower (v.getD "")

/-- Python truthiness chain `a or b or ""` for two optional strings:
`None` and the empty string fall through. -/
def firstTruthy (a b : Option String) : String :=
  match a with
  | some s => if s = "" then b.getD "" else s
  | none => b.getD ""

/-- `_collect_paths` (classifier.py lines 34-35). -/
def collect_paths (files : List FileEntry) : List String :=
  files.map (fun f => strTrim (safe_text (some (firstTruthy f.new_path f.old_path))))

/-- `_joined_text_and_paths` (classifier.py lines 38-47): the combined
lower-cased text blob and the collected paths. -/
def joined_text_and_paths (mr : MergeRequest) (files : List FileEntry)
    (features : Option Features) : String × List String :=
  let title := safe_text mr.title
  let desc := safe_text mr.description
  let labels := mr.labels.map strLower
  let source_branch := safe_text mr.source_branch
  let target_branch := safe_text mr.target_branch
  let paths := collect_paths files
  let commit_text := safe_text (features.bind Features.commit_message_text)
  let text := title ++ "\n" ++ desc ++ "\n" ++ joinSep " " labels ++ "\n" ++
    source_branch ++ " " ++ target_branch ++ "\n" ++ commit_text ++ "\n" ++ joinSep " " paths
  (text, paths)

/-- `_has_any` (classifier.py lines 50-51). -/
def has_any (text : String) (needles : List String) : Bool :=
  needles.any (fun n => strContains text n)

/-- `_infraish_terms` (classifier.py lines 54-63). -/
def infraish_terms : List String :=
  ["deploy", "deployment", "redeploy", "release", "rollout", "lambda", "serverless"]

/-- `_score_hits` (classifier.py lines 66-68). -/
def score_hits (text : String) (terms : List String) (weight : ℚ) : ℚ × List String :=
  let hits := terms.filter (fun term => strContains text term)
  ((hits.length : ℚ) * weight, hits)

/-- The rationale dict returned by `infer_base_type` alongside the label.
`dep_only_change` is `none` on the return paths whose dict omits that key. -/
structure BaseReason where
  reason : String
  scoreboard : List (String × ℚ)
  evidence : List (String × List String)
  certainty : String
  top_margin : ℚ
  docs_ratio : ℚ
  test_ratio : ℚ
  dep_only_change : Option Bool
deriving DecidableEq, Repr

/-- The values `infer_base_type` computes before its template cascade
(classifier.py lines 72-88), shared by both stages. -/
structure BaseSignals where
  text : String
  paths : List String
  docs_paths : List String
  test_paths : List String
  dep_only : Bool
  docs_ratio : ℚ
  test_ratio : ℚ
  code_ratio : ℚ
deriving DecidableEq, Repr

def base_signals (mr : MergeRequest) (files : List FileEntry) (features : Features) :
    BaseSignals :=
  let tp := joined_text_and_paths mr files (some features)
  let text := tp.1
  let paths := tp.2
  let path_count : ℕ := max 1 paths.length
  let docs_paths := paths.filter (fun p => strEndsWith p ".md" || strStartsWith p "docs/")
  let test_paths := paths.filter (fun p =>
    strContains p "test" || strEndsWith p "_test.py" || strEndsWith p ".spec.ts" ||
    strEndsWith p ".test.ts" || strEndsWith p ".test.js")
  let dep_only := features.dep_only_change.getD false
  let docs_ratio := features.docs_file_ratio.getD ((docs_paths.length : ℚ) / (path_count : ℚ))
  let test_ratio := features.test_file_ratio.getD ((test_paths.length : ℚ) / (path_count : ℚ))
  let code_ratio := features.code_file_ratio.getD 0
  ⟨text, paths, docs_paths, test_paths, dep_only, docs_ratio, test_ratio, code_ratio⟩

/-- Stage A of `infer_base_type` (classifier.py lines 90-156): the ordered
short-circuit templates; `none` when no template matches and the weighted
fallback runs. -/
def stageA (sg : BaseSignals) : Option (String × BaseReason) :=
  if sg.dep_only then
    some ("chore",
      ⟨"all_changed_files_are_dependency_manifests", [("chore", 10.0)],
        [("dep_only_change", ["true"])], "high", 10.0,
        pyRound3 sg.docs_ratio, pyRound3 sg.test_ratio, none⟩)
  else if sg.paths ≠ [] ∧ sg.docs_paths.length = sg.paths.length then
    some ("docs-only",
      ⟨"all_changed_files_are_docs", [("docs-only", 10.0)],
        [("docs_paths", sg.docs_paths)], "high", 10.0,
        pyRound3 sg.docs_ratio, pyRound3 sg.test_ratio, none⟩)
  else if sg.paths ≠ [] ∧ sg.test_paths.length = sg.paths.length then
    some ("test-only",
      ⟨"all_changed_files_are_tests", [("test-only", 10.0)],
        [("test_paths", sg.test_paths)], "high", 10.0,
        pyRound3 sg.docs_ratio, pyRound3 sg.test_ratio, none⟩)
  else if has_any sg.text ["bugfix", "hotfix", "regression", "fix ", "fix:"] ∧
      ¬ has_any sg.text ["new feature", "introduce", "implement new"] ∧
      sg.code_ratio ≥ 0.25 then
    some ("bugfix",
      ⟨"template_strong_bugfix", [("bugfix", 9.0)],
        [("bugfix_template", ["keyword+code_ratio"])], "high", 9.0,
        pyRound3 sg.docs_ratio, pyRound3 sg.test_ratio, none⟩)
  else if has_any sg.text ["refactor", "cleanup", "restructure", "rename", "extract"] ∧
      ¬ has_any sg.text ["feature", "new endpoint", "new api"] then
    some ("refactor",
      ⟨"template_strong_refactor", [("refactor", 8.5)],
        [("refactor_template", ["keyword"])], "high", 8.5,
        pyRound3 sg.docs_ratio, pyRound3 sg.test_ratio, none⟩)
  else if has_any sg.text ["snyk", "cve", "vulnerability", "security patch"] then
    some ("perf-security",
      ⟨"template_strong_security", [("perf-security", 8.5)],
        [("security_template", ["keyword"])], "high", 8.5,
        pyRound3 sg.docs_ratio, pyRound3 sg.test_ratio, none⟩)
  else none

/-- The Stage-B per-category score map (classifier.py lines 158-166), with the
fixed dict insertion order of the source. -/
structure Scoreboard where
  feature : ℚ
  bugfix : ℚ
  refactor : ℚ
  test_only : ℚ
  docs_only : ℚ
  chore : ℚ
  perf_security : ℚ
deriving DecidableEq, Repr

/-- `scores.items()` in dict insertion order. -/
def Scoreboard.items (s : Scoreboard) : List (String × ℚ) :=
  [("feature", s.feature), ("bugfix", s.bugfix), ("refactor", s.refactor),
   ("test-only", s.test_only), ("docs-only", s.docs_only), ("chore", s.chore),
   ("perf-security", s.perf_security)]

def bugfix_terms : List String :=
  ["fix", "bug", "issue", "regression", "hotfix", "incident", "defect", "patch"]
def refactor_terms : List String :=
  ["refactor", "cleanup", "restructure", "simplify", "rename", "extract method"]
def test_terms : List String :=
  ["test", "unit test", "integration test", "e2e", "spec", "coverage"]
def docs_terms : List String :=
  ["docs", "documentation", "readme", "changelog", "runbook", "adr"]
def chore_terms : List String :=
  ["chore", "deps", "dependency", "bump", "build", "ci", "lint", "format"]
def perf_security_terms : List String :=
  ["security", "vulnerability", "cve", "snyk", "auth", "authorization", "token",
   "rbac", "perf", "performance", "latency", "throughput", "optimize"]

/-- The keyword accumulation loop of Stage B (classifier.py lines 190-201):
the final score map together with the evidence dict (in insertion order). -/
def stageB_scores (mr : MergeRequest) (sg : BaseSignals) :
    Scoreboard × List (String × List String) :=
  let bh := score_hits sg.text bugfix_terms 1.45
  let rh := score_hits sg.text refactor_terms 1.1
  let th := score_hits sg.text test_terms 0.9
  let dh := score_hits sg.text docs_terms 0.9
  let ch := score_hits sg.text chore_terms 0.95
  let ph := score_hits sg.text perf_security_terms 1.3
  let evidence :=
    (if bh.1 > 0 then [("bugfix", bh.2)] else []) ++
    (if rh.1 > 0 then [("refactor", rh.2)] else []) ++
    (if th.1 > 0 then [("test-only", th.2)] else []) ++
    (if dh.1 > 0 then [("docs-only", dh.2)] else []) ++
    (if ch.1 > 0 then [("chore", ch.2)] else []) ++
    (if ph.1 > 0 then [("perf-security", ph.2)] else [])
  let scores : Scoreboard :=
    { feature := 0.6
      bugfix := (if bh.1 > 0 then bh.1 else 0)
      refactor := (if rh.1 > 0 then rh.1 else 0)
      test_only := (if th.1 > 0 then th.1 else 0) + (if sg.test_ratio ≥ 0.6 then 1.4 else 0)
      docs_only := (if dh.1 > 0 then dh.1 else 0) + (if sg.docs_ratio ≥ 0.6 then 1.4 else 0)
      chore := (if ch.1 > 0 then ch.1 else 0) + (if sg.dep_only then 1.8 else 0)
      perf_security := (if ph.1 > 0 then ph.1 else 0) }
  let scores :=
    if has_any sg.text ["feature", "feat:", "new feature", "introduce", "new endpoint", "new api"]
    then { scores with feature := scores.feature + 0.7 } else scores
  let title := safe_text mr.title
  let scores :=
    if strStartsWith title "fix" || strStartsWith title "bugfix" || strStartsWith title "hotfix"
    then { scores with bugfix := scores.bugfix + 0.8,
                       feature := max 0 (scores.feature - 0.2) }
    else scores
  (scores, evidence)

/-- Insert into a descending-sorted score list after every entry of
greater-or-equal score: the stable descending insertion matching Python
`sorted(..., reverse=True)`. -/
def insertDesc (x : String × ℚ) : List (String × ℚ) → List (String × ℚ)
  | [] => [x]
  | y :: ys => if y.2 > x.2 then y :: insertDesc x ys else x :: y :: ys

/-- Stable descending sort by score, as `sorted(scores.items(), key=kv[1], reverse=True)`. -/
def sortDesc : List (String × ℚ) → List (String × ℚ)
  | [] => []
  | x :: xs => insertDesc x (sortDesc xs)

/-- Stage B of `infer_base_type` (classifier.py lines 158-248). -/
def stageB (mr : MergeRequest) (sg : BaseSignals) : String × BaseReason :=
  let se := stageB_scores mr sg
  let scores := se.1
  let evidence := se.2
  let sorted_scores := sortDesc scores.items
  let top := sorted_scores.headD ("", 0)
  let top_score := top.2
  let second_score := match sorted_scores with
    | _ :: y :: _ => y.2
    | _ => 0
  let margin := pyRound3 (top_score - second_score)
  let top_type :=
    if top.1 ≠ "feature" ∧ margin < 0.25 ∧ scores.feature ≥ top_score - 0.15
    then "feature" else top.1
  let certainty := if margin ≥ 2.2 then "high" else if margin ≥ 1.0 then "medium" else "low"
  let certainty := if top_type = "docs-only" ∧ sg.docs_ratio ≥ 0.9 then "high" else certainty
  let certainty := if top_type = "test-only" ∧ sg.test_ratio ≥ 0.9 then "high" else certainty
  let certainty := if top_type = "chore" ∧ sg.dep_only then "high" else certainty
  (top_type,
    ⟨"weighted_signal_score", sorted_scores.map (fun kv => (kv.1, pyRound3 kv.2)),
      evidence, certainty, margin, pyRound3 sg.docs_ratio, pyRound3 sg.test_ratio,
      some sg.dep_only⟩)

/-- `infer_base_type` (classifier.py lines 71-248). -/
def infer_base_type (mr : MergeRequest) (files : List FileEntry) (features : Features) :
    String × BaseReason :=
  let sg := base_signals mr files features
  match stageA sg with
  | some r => r
  | none => stageB mr sg

/-- The strong infra terms of `detect_infra_intent_override`
(classifier.py lines 256-271). -/
def strong_infra_terms : List String :=
  ["codedeploy", "deployment pipeline", "deploy pipeline", "gitlab-ci", "github actions",
   "terraform", "terragrunt", "kubernetes", "k8s", "helm", "dockerfile",
   "infrastructure as code", "serverless", "lambda"]

/-- The per-path evidence appends of `detect_infra_intent_override`
(classifier.py lines 280-294): each matching condition appends one item. -/
def intent_path_evidence (p : String) : List String :=
  (if p ∈ [".gitlab-ci.yml", ".gitlab-ci.yaml", "dockerfile", "serverless.yml"]
   then ["path:" ++ p] else []) ++
  (if strStartsWith p ".github/workflows/" then ["path:" ++ p] else []) ++
  (if strStartsWith p "infra/" || strStartsWith p "infrastructure/" then ["path:" ++ p] else []) ++
  (if strStartsWith p "terraform/" || strStartsWith p "helm/" || strStartsWith p "k8s/"
   then ["path:" ++ p] else []) ++
  (if strStartsWith p "lambda/" || strStartsWith p "lambdas/" then ["path:" ++ p] else []) ++
  (if strStartsWith p "scripts/deploy" || strEndsWith p "/deploy.sh" || p = "deploy.sh"
   then ["path:" ++ p] else []) ++
  (if strEndsWith p ".tf" || strEndsWith p ".tfvars" then ["path:" ++ p] else [])

/-- `detect_infra_intent_override` (classifier.py lines 251-296):
whether any evidence was found, and `sorted(set(evidence))`. -/
def detect_infra_intent_override (mr : MergeRequest) (files : List FileEntry)
    (features : Option Features) : Bool × List String :=
  let tp := joined_text_and_paths mr files features
  let text := tp.1
  let paths := tp.2
  let title := safe_text mr.title
  let evidence :=
    ((strong_infra_terms.filter (fun term => strContains text term)).map
      (fun term => "term:" ++ term)) ++
    ((infraish_terms.filter (fun term => strContains title term)).map
      (fun term => "title:" ++ term)) ++
    (paths.flatMap intent_path_evidence)
  (evidence.length > 0, sortedUnique evidence)

/-- `detect_capability_tags` (classifier.py lines 299-352): the sorted tag
list and the evidence map in insertion order.  The `infra.general` evidence
string stands in for the Python f-string rendering of the signal score. -/
def detect_capability_tags (mr : MergeRequest) (files : List FileEntry)
    (features : Features) (final_type : String) : List String × List (String × List String) :=
  let tp := joined_text_and_paths mr files (some features)
  let text := tp.1
  let paths := tp.2
  let addTag := fun (acc : List (String × List String)) (tag : String) (hits : List String) =>
    if hits = [] then acc else acc ++ [(tag, sortedUnique hits)]
  let acc : List (String × List String) := []
  let acc := if strContains text "redis"
    then addTag acc "infra.redis" (["redis", "cache"].filter (fun k => strContains text k))
    else acc
  let tf_hits := (paths.filter (fun p => strEndsWith p ".tf")) ++
    (["terraform", "terragrunt"].filter (fun k => strContains text k))
  let acc := addTag acc "infra.terraform" tf_hits
  let acc := addTag acc "infra.k8s"
    (["k8s", "kubernetes", "helm", "cluster"].filter (fun k => strContains text k))
  let acc := addTag acc "infra.cicd"
    (["ci/cd", "pipeline", "gitlab-ci", "github actions", "jenkins", "codedeploy", "deploy",
      "deployment", "release", "rollout", "lambda", "serverless"].filter
      (fun k => strContains text k))
  let acc := addTag acc "observability"
    (["observability", "prometheus", "grafana", "datadog", "tracing", "metrics",
      "newrelic"].filter (fun k => strContains text k))
  let acc := addTag acc "deps.update"
    (["dependency", "deps", "bump", "renovate", "package-lock", "pnpm-lock",
      "poetry.lock"].filter (fun k => strContains text k))
  let acc := addTag acc "security.sca"
    (["snyk", "sca", "dependency scan"].filter (fun k => strContains text k))
  let acc := addTag acc "security.auth"
    (["auth", "oauth", "jwt", "token", "rbac", "authorization"].filter
      (fun k => strContains text k))
  let acc := addTag acc "data.migration"
    (["migration", "schema", "alembic", "flyway", "liquibase"].filter
      (fun k => strContains text k))
  let acc := addTag acc "api.contract"
    (["openapi", "swagger", "api contract", "graphql schema"].filter
      (fun k => strContains text k))
  let acc := addTag acc "performance"
    (["latency", "throughput", "performance", "perf"].filter (fun k => strContains text k))
  let general := features.infra_signal_score.getD 0 ≥ 0.1 ∨ final_type = "infra"
  let acc := if general
    then acc ++ [("infra.general", ["infra_signal=" ++ toString (features.infra_signal_score.getD 0)])]
    else acc
  (sortedUnique (acc.map Prod.fst), acc)

/-- `detect_risk_tags` (classifier.py lines 355-376). -/
def detect_risk_tags (mr : MergeRequest) (files : List FileEntry) (features : Features)
    (capability_tags : List String) (final_type : String) : List String :=
  let text := (joined_text_and_paths mr files (some features)).1
  let risks :=
    (if capability_tags.any (fun t => strStartsWith t "security.") then ["risk.security"] else []) ++
    (if "data.migration" ∈ capability_tags then ["risk.migration"] else []) ++
    (if has_any text ["breaking", "breaking change", "backward incompatible"]
     then ["risk.breaking-change"] else []) ++
    (if final_type = "infra" ∨ capability_tags.any (fun t => strStartsWith t "infra.")
     then ["risk.infra"] else []) ++
    (if pyInt (features.churn.getD 0) > 1500 then ["risk.large-change"] else [])
  sortedUnique risks

/-- `confidence_band` (classifier.py lines 379-385). -/
def confidence_band (score : ℚ) (needs_review_threshold : ℚ) : String :=
  let medium_floor := max 0.45 (min 0.8 needs_review_threshold)
  if score ≥ 0.8 then "high"
  else if score ≥ medium_floor then "medium"
  else "low"

/-- `_conflict_penalty` (classifier.py lines 388-411).  The `base_type`
parameter is present but unused, exactly as in the source. -/
def conflict_penalty (base_type : String) (scoreboard : List (String × ℚ)) (margin : ℚ) :
    ℚ × List String :=
  if scoreboard.length < 2 then (0, [])
  else
    let top_label := (scoreboard.headD ("", 0)).1
    let second_label := ((scoreboard.drop 1).headD ("", 0)).1
    let pair := if strLtB second_label top_label
      then (second_label, top_label) else (top_label, second_label)
    if margin ≥ 1.0 then (0, [])
    else if pair = ("bugfix", "feature") ∧ margin ≥ 0.75 then (0, [])
    else
      let penalty : ℚ :=
        if pair = ("bugfix", "feature") then 0.07
        else if pair = ("feature", "infra") then 0.12
        else if pair = ("chore", "perf-security") then 0.10
        else if pair = ("feature", "refactor") then 0.08
        else 0
      if penalty ≤ 0 then (0, [])
      else (penalty, [top_label ++ "|" ++ second_label])

/-- The alias table of `_label_support_stats` (classifier.py lines 419-428). -/
def support_map : List (String × List String) :=
  [("feature", ["feature", "enhancement"]),
   ("bugfix", ["bug", "bugfix", "fix", "defect", "hotfix"]),
   ("refactor", ["refactor", "cleanup"]),
   ("test-only", ["test", "tests"]),
   ("docs-only", ["docs", "documentation"]),
   ("chore", ["chore", "maintenance", "dependencies", "deps"]),
   ("perf-security", ["security", "perf", "performance", "snyk", "vulnerability"]),
   ("infra", ["infra", "platform", "devops", "sre"])]

/-- `_label_support_stats` (classifier.py lines 414-439): counts of labels
supporting and conflicting with the final type. -/
def label_support_stats (mr : MergeRequest) (final_type : String) : ℕ × ℕ :=
  let labels := (mr.labels.filter (fun l => strTrim l ≠ "")).map (fun l => strLower (strTrim l))
  if labels = [] then (0, 0)
  else
    let support_aliases := ((support_map.find? (fun kv => kv.1 = final_type)).map Prod.snd).getD []
    let support := (labels.filter (fun lbl => lbl ∈ support_aliases)).length
    let conflict := (labels.filter (fun lbl =>
      support_map.any (fun kv => kv.1 ≠ final_type ∧ lbl ∈ kv.2))).length
    (support, conflict)

/-- The factors dict returned by `compute_confidence`. -/
structure ConfidenceFactors where
  richness : ℕ
  top_margin : ℚ
  certainty : String
  capability_tag_count : ℕ
  dep_only_change : Bool
  docs_ratio : ℚ
  test_ratio : ℚ
  code_ratio : ℚ
  label_support_count : ℕ
  label_conflict_count : ℕ
  conflict_pairs : List String
  infra_intent_override_applied : Bool
  confidence_band : String
deriving DecidableEq, Repr

/-- The final clamp of `compute_confidence` (classifier.py line 530):
`max(0.3, min(0.95, round(score, 3)))`. -/
def clamp_conf (score : ℚ) : ℚ := max 0.3 (min 0.95 (pyRound3 score))

/-- `compute_confidence` (classifier.py lines 442-546). -/
def compute_confidence (base_type final_type : String) (needs_review_threshold : ℚ)
    (mr : MergeRequest) (files : List FileEntry) (features : Features)
    (base_reason : BaseReason) (capability_tags : List String)
    (infra_intent_override_applied : Bool) : ℚ × ConfidenceFactors :=
  let tp := joined_text_and_paths mr files (some features)
  let text := tp.1
  let paths := tp.2
  let has_description := features.has_description.getD false
  let label_count := pyInt (features.label_count.getD 0)
  let docs_ratio := features.docs_file_ratio.getD 0
  let test_ratio := features.test_file_ratio.getD 0
  let dep_only := features.dep_only_change.getD false
  let code_ratio := features.code_file_ratio.getD 0
  let richness : ℕ :=
    (if has_description then 1 else 0) + (if label_count > 0 then 1 else 0) +
    (if pyInt (features.commit_count.getD 0) > 0 then 1 else 0) +
    (if paths.length > 1 then 1 else 0)
  let score : ℚ := 0.52 + 0.05 * (richness : ℚ)
  let score := if base_type = "docs-only" ∨ base_type = "test-only" then score + 0.16 else score
  let score := if final_type = "bugfix" ∨ final_type = "refactor" ∨ final_type = "chore" ∨
      final_type = "perf-security" ∨ final_type = "infra" then score + 0.1 else score
  let margin := base_reason.top_margin
  let score := if margin ≥ 2.0 then score + 0.18
    else if margin ≥ 1.0 then score + 0.11
    else if margin ≥ 0.5 then score + 0.05
    else score - 0.08
  let certainty := base_reason.certainty
  let score := if certainty = "high" then score + 0.18
    else if certainty = "medium" then score + 0.07
    else score - 0.03
  let score := if dep_only ∧ base_type = "chore" then score + 0.22 else score
  let score := if docs_ratio ≥ 0.9 ∧ base_type = "docs-only" then score + 0.2 else score
  let score := if test_ratio ≥ 0.9 ∧ base_type = "test-only" then score + 0.18 else score
  let score := if code_ratio > 0.6 ∧ (base_type = "docs-only" ∨ base_type = "test-only")
    then score - 0.2 else score
  let score := if capability_tags ≠ []
    then score + min 0.16 (0.02 * (capability_tags.length : ℚ)) else score
  let evidence_classes := base_reason.evidence.length
  let score := if margin < 0.6 ∧ evidence_classes ≥ 3 then score - 0.1 else score
  let cp := conflict_penalty base_type base_reason.scoreboard margin
  let conflict_pen := cp.1
  let conflict_pairs := cp.2
  let score := score - conflict_pen
  let ls := label_support_stats mr final_type
  let label_support := ls.1
  let label_conflict := ls.2
  let score := score + min 0.08 (0.04 * (label_support : ℚ))
  let score := score - min 0.12 (0.04 * (label_conflict : ℚ))
  let score := if base_type = "feature" ∧ capability_tags = [] ∧ paths.length ≤ 1 ∧
      strLen text < 120 then score - 0.08 else score
  let score := if infra_intent_override_applied then score + 0.06 else score
  let score := if ¬ has_description ∧ label_count = 0 ∧ pyInt (features.commit_count.getD 0) = 0
    then score - 0.08 else score
  let score := clamp_conf score
  (score,
    ⟨richness, margin, certainty, capability_tags.length, dep_only, docs_ratio, test_ratio,
      code_ratio, label_support, label_conflict, conflict_pairs,
      infra_intent_override_applied, confidence_band score needs_review_threshold⟩)

/-- `complexity_score` (classifier.py lines 549-567): every feature access is
a dict subscript and raises `KeyError` on a missing key, in source order. -/
def complexity_score (features : Features) : Except String (ℚ × String) :=
  match features.churn with
  | none => .error ("KeyError: " ++ "churn")
  | some churn =>
  match features.files_changed with
  | none => .error ("KeyError: " ++ "files_changed")
  | some files_changed =>
  match features.commit_count with
  | none => .error ("KeyError: " ++ "commit_count")
  | some commit_count =>
  match features.review_comment_count with
  | none => .error ("KeyError: " ++ "review_comment_count")
  | some review_comment_count =>
  match features.review_thread_count with
  | none => .error ("KeyError: " ++ "review_thread_count")
  | some review_thread_count =>
  match features.unresolved_thread_count with
  | none => .error ("KeyError: " ++ "unresolved_thread_count")
  | some unresolved_thread_count =>
  match features.pipeline_failed_count with
  | none => .error ("KeyError: " ++ "pipeline_failed_count")
  | some pipeline_failed_count =>
  let score : ℚ := min (churn / 250) 4.0 + min (files_changed / 10) 2.0 +
    min (commit_count / 8) 1.5 + min (review_comment_count / 20) 1.5 +
    min (review_thread_count / 10) 1.0 + min (unresolved_thread_count / 5) 1.0 +
    min (pipeline_failed_count / 3) 1.0
  let level := if score < 1.5 then "Very Low"
    else if score < 3.0 then "Low"
    else if score < 5.0 then "Medium"
    else if score < 7.0 then "High"
    else "Very High"
  .ok (score, level)

/-- The `complexity_components` sub-dict of the rationale
(classifier.py lines 642-650). -/
structure ComplexityComponents where
  churn : ℚ
  files_changed : ℚ
  commit_count : ℚ
  review_comment_count : ℚ
  review_thread_count : ℚ
  unresolved_thread_count : ℚ
  pipeline_failed_count : ℚ
deriving DecidableEq, Repr

/-- The `rationale` dict assembled by `classify` (classifier.py lines 626-651). -/
structure Rationale where
  base_reason : BaseReason
  infra_signal_score : ℚ
  infra_signal_level : String
  matched_infra_tickets : List String
  matched_infra_keywords : List String
  matched_infra_labels : List String
  infra_intent_override : Bool
  infra_intent_evidence : List String
  infra_path_strong : Bool
  intent_override_applied : Bool
  capability_tag_evidence : List (String × List String)
  risk_tags : List String
  confidence_factors : ConfidenceFactors
  needs_review_threshold : ℚ
  why_needs_review : List String
  complexity_components : ComplexityComponents
deriving DecidableEq, Repr

/-- The dict returned by `classify` (classifier.py lines 653-668). -/
structure ClassificationResult where
  base_type : String
  final_type : String
  is_infra_related : Bool
  infra_override_applied : Bool
  complexity_level : String
  complexity_score : ℚ
  capability_tags : List String
  risk_tags : List String
  classification_confidence : ℚ
  confidence_band : String
  needs_review : Bool
  classifier_version : String
  rationale : Rationale
  classified_at : String
deriving DecidableEq, Repr

/-- The `why_needs_review` list built by `classify`
(classifier.py lines 613-624). -/
def why_needs_review_of (needs_review : Bool) (top_margin : ℚ)
    (conflict_pairs : List String) (label_conflict_count : ℕ)
    (has_description : Bool) : List String :=
  if needs_review then
    let why :=
      (if top_margin < 0.8 then ["low_top2_margin"] else []) ++
      (if conflict_pairs ≠ [] then ["conflicting_class_signals"] else []) ++
      (if label_conflict_count > 0 then ["conflicting_labels"] else []) ++
      (if ¬ has_description then ["missing_description"] else [])
    if why = [] then ["composite_low_confidence"] else why
  else []

/-- `any(e.startswith("path:") for e in infra_intent_evidence)`
(classifier.py line 583). -/
def infra_path_strong_of (evidence : List String) : Bool :=
  evidence.any (fun e => strStartsWith e "path:")

/-- The intent-override gate of `classify` (classifier.py lines 585-590):
for base type `bugfix` or `chore` only path evidence forces the override. -/
def intent_override_applied_of (base_type : String) (intent : Bool × List String) : Bool :=
  if intent.1 then
    (if base_type = "bugfix" ∨ base_type = "chore" then infra_path_strong_of intent.2 else true)
  else false

/-- The `final_type` decision of `classify` (classifier.py line 592):
`"infra"` when either the strong-threshold override or the gated intent
override applies, the base type otherwise. -/
def final_type_of (mr : MergeRequest) (files : List FileEntry) (features : Features)
    (config : ClassificationConfig) (s : ℚ) : String :=
  if (decide (s ≥ config.infra_strong_threshold) ||
      intent_override_applied_of (infer_base_type mr files features).1
        (detect_infra_intent_override mr files (some features))) = true
  then "infra" else (infer_base_type mr files features).1

/-- The pure body of `classify` (classifier.py lines 570-668), given the
values of the required feature keys (whose fallible dict accesses are
sequenced in `classifyCore`).  `classified_at` is left empty here; the
caller stamps it. -/
def buildResult (mr : MergeRequest) (files : List FileEntry) (features : Features)
    (config : ClassificationConfig) (infra_signal_score : ℚ) (comp : ℚ × String)
    (infra_signal_level : String) (churn files_changed commit_count review_comment_count
    review_thread_count unresolved_thread_count pipeline_failed_count : ℚ) :
    ClassificationResult :=
  let btr := infer_base_type mr files features
  let base_type := btr.1
  let base_reason := btr.2
  let is_infra_related := decide (infra_signal_score ≥ config.infra_weak_threshold)
  let infra_override_applied := decide (infra_signal_score ≥ config.infra_strong_threshold)
  let intent := detect_infra_intent_override mr files (some features)
  let infra_intent_override := intent.1
  let infra_intent_evidence := intent.2
  let infra_path_strong := infra_path_strong_of infra_intent_evidence
  let intent_override_applied : Bool := intent_override_applied_of base_type intent
  let final_type := final_type_of mr files features config infra_signal_score
  let infra_override_applied := infra_override_applied || intent_override_applied
  let is_infra_related := is_infra_related || infra_intent_override
  let caps := detect_capability_tags mr files features final_type
  let capability_tags := caps.1
  let capability_evidence := caps.2
  let risk_tags := detect_risk_tags mr files features capability_tags final_type
  let conf := compute_confidence base_type final_type config.needs_review_threshold
    mr files features base_reason capability_tags intent_override_applied
  let confidence := conf.1
  let confidence_factors := conf.2
  let c_score := comp.1
  let c_level := comp.2
  let needs_review := decide (confidence < config.needs_review_threshold)
  let why_needs_review := why_needs_review_of needs_review base_reason.top_margin
    confidence_factors.conflict_pairs confidence_factors.label_conflict_count
    (features.has_description.getD false)
  let rationale : Rationale :=
    ⟨base_reason, infra_signal_score, infra_signal_level,
      features.matched_infra_tickets.getD [], features.matched_infra_keywords.getD [],
      features.matched_infra_labels.getD [], infra_intent_override, infra_intent_evidence,
      infra_path_strong, intent_override_applied, capability_evidence, risk_tags,
      confidence_factors, config.needs_review_threshold, why_needs_review,
      ⟨churn, files_changed, commit_count, review_comment_count, review_thread_count,
        unresolved_thread_count, pipeline_failed_count⟩⟩
  ⟨base_type, final_type, is_infra_related, infra_override_applied, c_level, c_score,
    capability_tags, risk_tags, confidence,
    confidence_band confidence config.needs_review_threshold, needs_review,
    CLASSIFIER_VERSION, rationale, ""⟩

/-- `classify` without the timestamp: the fallible dict accesses of the
source, in evaluation order (`features["infra_signal_score"]` at line 578,
the seven complexity subscripts at lines 551-557 reached from line 610,
`features["infra_signal_level"]` at line 629 and the `complexity_components`
subscripts at lines 643-649), around the pure body `buildResult`. -/
def classifyCore (mr : MergeRequest) (files : List FileEntry) (features : Features)
    (config : ClassificationConfig) : Except String ClassificationResult :=
  match features.infra_signal_score with
  | none => .error ("KeyError: " ++ "infra_signal_score")
  | some infra_signal_score =>
  match complexity_score features with
  | .error e => .error e
  | .ok comp =>
  match features.infra_signal_level with
  | none => .error ("KeyError: " ++ "infra_signal_level")
  | some infra_signal_level =>
  match features.churn with
  | none => .error ("KeyError: " ++ "churn")
  | some churn =>
  match features.files_changed with
  | none => .error ("KeyError: " ++ "files_changed")
  | some files_changed =>
  match features.commit_count with
  | none => .error ("KeyError: " ++ "commit_count")
  | some commit_count =>
  match features.review_comment_count with
  | none => .error ("KeyError: " ++ "review_comment_count")
  | some review_comment_count =>
  match features.review_thread_count with
  | none => .error ("KeyError: " ++ "review_thread_count")
  | some review_thread_count =>
  match features.unresolved_thread_count with
  | none => .error ("KeyError: " ++ "unresolved_thread_count")
  | some unresolved_thread_count =>
  match features.pipeline_failed_count with
  | none => .error ("KeyError: " ++ "pipeline_failed_count")
  | some pipeline_failed_count =>
  .ok (buildResult mr files features config infra_signal_score comp infra_signal_level
    churn files_changed commit_count review_comment_count review_thread_count
    unresolved_thread_count pipeline_failed_count)

/-- `classify` (classifier.py lines 570-668).  `now` is the
`datetime.now(timezone.utc).isoformat()` value, used only for
`classified_at`. -/
def classify (mr : MergeRequest) (files : List FileEntry) (features : Features)
    (config : ClassificationConfig) (now : String) : Except String ClassificationResult :=
  (classifyCore mr files features config).map (fun r => { r with classified_at := now })

/-- The required numeric feature keys of the engine (subscripted with `[]`
in the source rather than read through `.get`), listed in evaluation order,
restricted to the ones missing from `f`.  Its head is the key whose access
raises first. -/
def required_feature_keys_missing (f : Features) : List String :=
  (if f.infra_signal_score.isNone then ["infra_signal_score"] else []) ++
  (if f.churn.isNone then ["churn"] else []) ++
  (if f.files_changed.isNone then ["files_changed"] else []) ++
  (if f.commit_count.isNone then ["commit_count"] else []) ++
  (if f.review_comment_count.isNone then ["review_comment_count"] else []) ++
  (if f.review_thread_count.isNone then ["review_thread_count"] else []) ++
  (if f.unresolved_thread_count.isNone then ["unresolved_thread_count"] else []) ++
  (if f.pipeline_failed_count.isNone then ["pipeline_failed_count"] else []) ++
  (if f.infra_signal_level.isNone then ["infra_signal_level"] else [])

/-- The Stage-B selection property: the head of the stable descending sort
carries the maximal score, and the returned label is that top category
unless the feature tie-break fires, in which case it is `"feature"`. -/
def stageB_claim (mr : MergeRequest) (files : List FileEntry) (features : Features) : Prop :=
  let sg := base_signals mr files features
  let scores := (stageB_scores mr sg).1
  let sorted_scores := sortDesc scores.items
  let top := sorted_scores.headD ("", 0)
  let second_score := match sorted_scores with
    | _ :: y :: _ => y.2
    | _ => 0
  let margin := pyRound3 (top.2 - second_score)
  (∀ p ∈ scores.items, p.2 ≤ top.2) ∧
  (infer_base_type mr files features).1 =
    (if top.1 ≠ "feature" ∧ margin < 0.25 ∧ scores.feature ≥ top.2 - 0.15
     then "feature" else top.1)

/-- Does an engine run succeed? -/
def classifyOk (e : Except String ClassificationResult) : Bool :=
  match e with
  | .ok _ => true
  | .error _ => false

/-! ### Concrete inputs used by the witnesses -/

/-- A plain feature merge request exercising the Stage-B fallback. -/
def exMr : MergeRequest := ⟨some "add cool widget", some "new endpoint", ["feature"], none, none⟩

def exFiles : List FileEntry := [⟨some "src/widget.py", none⟩]

def exFeats : Features :=
  ⟨some 10, some 1, some 2, some 0, some 0, some 0, some 0, some 0, some "none",
   some 0, some 0, some 1, some false, some true, some 1, none, some [], some [], some []⟩

def exCfg : ClassificationConfig := ⟨4, 1.5, 0.75⟩

/-- `exFeats` with an infra-signal score above the strong threshold. -/
def exFeatsStrong : Features := { exFeats with infra_signal_score := some 5 }

/-- `exFeats` with the required `churn` key missing. -/
def exFeatsNoChurn : Features := { exFeats with churn := none }

/-- A bugfix whose title mentions `deploy`: the intent override collects
text-only (title) evidence and no path evidence. -/
def bugMr : MergeRequest := ⟨some "fix deploy crash", some "", [], none, none⟩

def bugFiles : List FileEntry := [⟨some "src/main.py", none⟩]

def bugFeats : Features := { exFeats with code_file_ratio := some 1 }

/-- A weak/strong threshold pair violating the configuration contract
(`infra_weak_threshold ≥ infra_strong_threshold`): the dataclass constructor
accepts it unchecked, exactly as `ClassificationConfig` in the source. -/
def invalidCfg : ClassificationConfig := ⟨1, 2, 0.75⟩

def plainMr : MergeRequest := ⟨some "update business logic", some "", [], none, none⟩

def plainFiles : List FileEntry := [⟨some "src/core.py", none⟩]

/-- Features with an infra-signal score between the inverted thresholds of
`invalidCfg`. -/
def midFeats : Features := { exFeats with infra_signal_score := some 1.5 }

/-! ## Helper lemmas -/

lemma insertDesc_ne_nil (x : String × ℚ) (l : List (String × ℚ)) : insertDesc x l ≠ [] := by
  cases l with
  | nil => simp [insertDesc]
  | cons y ys =>
    unfold insertDesc
    split <;> simp

lemma mem_insertDesc {y x : String × ℚ} {l : List (String × ℚ)} :
    y ∈ insertDesc x l ↔ y = x ∨ y ∈ l := by
  induction l with
  | nil => simp [insertDesc]
  | cons z zs ih =>
    unfold insertDesc
    split
    · simp only [List.mem_cons, ih]
      try tauto
    · simp only [List.mem_cons]
      try tauto

lemma mem_sortDesc {y : String × ℚ} {l : List (String × ℚ)} :
    y ∈ sortDesc l ↔ y ∈ l := by
  induction l with
  | nil => simp [sortDesc]
  | cons x xs ih =>
    unfold sortDesc
    rw [List.mem_cons, mem_insertDesc, ih]

lemma sortDesc_headD_max (l : List (String × ℚ)) (d : String × ℚ) :
    ∀ y ∈ l, y.2 ≤ ((sortDesc l).headD d).2 := by
  induction l with
  | nil => intro y hy; cases hy
  | cons x xs ih =>
    intro y hy
    unfold sortDesc
    rcases hs : sortDesc xs with _ | ⟨z, zs⟩
    · have hxs : xs = [] := by
        cases xs with
        | nil => rfl
        | cons a as =>
          exfalso
          have : a ∈ sortDesc (a :: as) := mem_sortDesc.mpr (List.mem_cons_self a as)
          rw [hs] at this
          cases this
      subst hxs
      rcases List.mem_singleton.mp hy with rfl
      simp [insertDesc]
    · unfold insertDesc
      rcases List.mem_cons.mp hy with rfl | hmem
      · split
        · rename_i hgt
          simpa using le_of_lt hgt
        · simp
      · have hz := ih y hmem
        rw [hs] at hz
        simp only [List.headD_cons] at hz
        split
        · simpa using hz
        · rename_i hle
          push_neg at hle
          simpa using le_trans hz hle

lemma headD_mem_or {α : Type} (l : List α) (d : α) : l.headD d ∈ l ∨ l.headD d = d := by
  cases l with
  | nil => right; rfl
  | cons x xs => left; simp

/-- Inverting a successful `classifyCore` run: every required key was
present and the result is the pure body applied to the read values. -/
lemma classifyCore_ok_inv {mr : MergeRequest} {files : List FileEntry} {feats : Features}
    {config : ClassificationConfig} {r : ClassificationResult}
    (h : classifyCore mr files feats config = .ok r) :
    ∃ s comp lvl churn fc cc rcc rtc utc pfc,
      feats.infra_signal_score = some s ∧ complexity_score feats = .ok comp ∧
      feats.infra_signal_level = some lvl ∧ feats.churn = some churn ∧
      feats.files_changed = some fc ∧ feats.commit_count = some cc ∧
      feats.review_comment_count = some rcc ∧ feats.review_thread_count = some rtc ∧
      feats.unresolved_thread_count = some utc ∧ feats.pipeline_failed_count = some pfc ∧
      r = buildResult mr files feats config s comp lvl churn fc cc rcc rtc utc pfc := by
  unfold classifyCore at h
  cases hs : feats.infra_signal_score with
  | none => rw [hs] at h; simp at h
  | some s =>
  rw [hs] at h
  cases hcomp : complexity_score feats with
  | error e => rw [hcomp] at h; simp at h
  | ok comp =>
  rw [hcomp] at h
  cases hlvl : feats.infra_signal_level with
  | none => rw [hlvl] at h; simp at h
  | some lvl =>
  rw [hlvl] at h
  cases hchurn : feats.churn with
  | none => rw [hchurn] at h; simp at h
  | some churn =>
  rw [hchurn] at h
  cases hfc : feats.files_changed with
  | none => rw [hfc] at h; simp at h
  | some fc =>
  rw [hfc] at h
  cases hcc : feats.commit_count with
  | none => rw [hcc] at h; simp at h
  | some cc =>
  rw [hcc] at h
  cases hrcc : feats.review_comment_count with
  | none => rw [hrcc] at h; simp at h
  | some rcc =>
  rw [hrcc] at h
  cases hrtc : feats.review_thread_count with
  | none => rw [hrtc] at h; simp at h
  | some rtc =>
  rw [hrtc] at h
  cases hutc : feats.unresolved_thread_count with
  | none => rw [hutc] at h; simp at h
  | some utc =>
  rw [hutc] at h
  cases hpfc : feats.pipeline_failed_count with
  | none => rw [hpfc] at h; simp at h
  | some pfc =>
  rw [hpfc] at h
  exact ⟨s, comp, lvl, churn, fc, cc, rcc, rtc, utc, pfc, rfl, rfl, rfl, rfl, rfl,
    rfl, rfl, rfl, rfl, rfl, (Except.ok.inj h).symm⟩

section ProjectionLemmas

variable (mr : MergeRequest) (files : List FileEntry) (feats : Features)
variable (config : ClassificationConfig) (s : ℚ) (comp : ℚ × String) (lvl : String)
variable (churn fc cc rcc rtc utc pfc : ℚ)

lemma buildResult_base_type :
    (buildResult mr files feats config s comp lvl churn fc cc rcc rtc utc pfc).base_type =
      (infer_base_type mr files feats).1 := rfl

lemma buildResult_final_type :
    (buildResult mr files feats config s comp lvl churn fc cc rcc rtc utc pfc).final_type =
      (if (decide (s ≥ config.infra_strong_threshold) ||
            intent_override_applied_of (infer_base_type mr files feats).1
              (detect_infra_intent_override mr files (some feats))) = true
       then "infra" else (infer_base_type mr files feats).1) := rfl

lemma buildResult_infra_override_applied :
    (buildResult mr files feats config s comp lvl churn fc cc rcc rtc utc
        pfc).infra_override_applied =
      (decide (s ≥ config.infra_strong_threshold) ||
        intent_override_applied_of (infer_base_type mr files feats).1
          (detect_infra_intent_override mr files (some feats))) := rfl

lemma buildResult_is_infra_related :
    (buildResult mr files feats config s comp lvl churn fc cc rcc rtc utc
        pfc).is_infra_related =
      (decide (s ≥ config.infra_weak_threshold) ||
        (detect_infra_intent_override mr files (some feats)).1) := rfl

lemma buildResult_needs_review :
    (buildResult mr files feats config s comp lvl churn fc cc rcc rtc utc pfc).needs_review =
      decide ((buildResult mr files feats config s comp lvl churn fc cc rcc rtc utc
        pfc).classification_confidence < config.needs_review_threshold) := rfl

lemma buildResult_confidence :
    (buildResult mr files feats config s comp lvl churn fc cc rcc rtc utc
        pfc).classification_confidence =
      (compute_confidence (infer_base_type mr files feats).1
        (final_type_of mr files feats config s) config.needs_review_threshold mr files feats
        (infer_base_type mr files feats).2
        (detect_capability_tags mr files feats (final_type_of mr files feats config s)).1
        (intent_override_applied_of (infer_base_type mr files feats).1
          (detect_infra_intent_override mr files (some feats)))).1 := rfl

lemma buildResult_why :
    (buildResult mr files feats config s comp lvl churn fc cc rcc rtc utc
        pfc).rationale.why_needs_review =
      why_needs_review_of
        (buildResult mr files feats config s comp lvl churn fc cc rcc rtc utc pfc).needs_review
        (buildResult mr files feats config s comp lvl churn fc cc rcc rtc utc
          pfc).rationale.base_reason.top_margin
        (buildResult mr files feats config s comp lvl churn fc cc rcc rtc utc
          pfc).rationale.confidence_factors.conflict_pairs
        (buildResult mr files feats config s comp lvl churn fc cc rcc rtc utc
          pfc).rationale.confidence_factors.label_conflict_count
        (feats.has_description.getD false) := rfl

end ProjectionLemmas

lemma clamp_conf_bounds (x : ℚ) : 0.3 ≤ clamp_conf x ∧ clamp_conf x ≤ 0.95 :=
  ⟨le_max_left _ _, max_le (by norm_num) (min_le_left _ _)⟩

lemma compute_confidence_fst_bounds (base_type final_type : String)
    (needs_review_threshold : ℚ) (mr : MergeRequest) (files : List FileEntry)
    (features : Features) (base_reason : BaseReason) (capability_tags : List String)
    (infra_intent_override_applied : Bool) :
    0.3 ≤ (compute_confidence base_type final_type needs_review_threshold mr files features
        base_reason capability_tags infra_intent_override_applied).1 ∧
      (compute_confidence base_type final_type needs_review_threshold mr files features
        base_reason capability_tags infra_intent_override_applied).1 ≤ 0.95 :=
  clamp_conf_bounds _

lemma if_nil_fallback_ne_nil (w : List String) :
    (if w = [] then ["composite_low_confidence"] else w) ≠ [] := by
  split
  · simp
  · assumption

lemma why_needs_review_of_true_ne_nil (m : ℚ) (cp : List String) (lcc : ℕ) (hd : Bool) :
    why_needs_review_of true m cp lcc hd ≠ [] :=
  if_nil_fallback_ne_nil _

lemma intent_override_applied_of_true {bt : String} {io : Bool × List String}
    (h : intent_override_applied_of bt io = true) : io.1 = true := by
  unfold intent_override_applied_of at h
  by_cases hio : io.1 = true
  · exact hio
  · simp [hio] at h

lemma intent_override_applied_of_text_only {bt : String} {io : Bool × List String}
    (hbt : bt = "bugfix" ∨ bt = "chore")
    (hev : ∀ e ∈ io.2, strStartsWith e "path:" = false) :
    intent_override_applied_of bt io = false := by
  unfold intent_override_applied_of
  have hps : infra_path_strong_of io.2 = false := by
    unfold infra_path_strong_of
    rw [List.any_eq_false]
    intro e he
    simp [hev e he]
  rcases hbt with h | h <;> simp [h, hps]

/-- Every Stage-A template label. -/
lemma stageA_first {sg : BaseSignals} {r : String × BaseReason} (h : stageA sg = some r) :
    r.1 = "chore" ∨ r.1 = "docs-only" ∨ r.1 = "test-only" ∨ r.1 = "bugfix" ∨
      r.1 = "refactor" ∨ r.1 = "perf-security" := by
  unfold stageA at h
  split_ifs at h
  all_goals (injection h with h2; subst h2; simp)

/-- No key of the Stage-B score map is `"infra"`. -/
lemma items_first_ne_infra (sb : Scoreboard) :
    ∀ p ∈ sb.items, p.1 ≠ "infra" := by
  intro p hp
  simp only [Scoreboard.items, List.mem_cons, List.not_mem_nil, or_false] at hp
  rcases hp with rfl | rfl | rfl | rfl | rfl | rfl | rfl <;> simp

/-- The weighted fallback can only return a key of the score map or the
forced default label; it never returns `"infra"`. -/
lemma stageB_first_ne_infra (mr : MergeRequest) (sg : BaseSignals) :
    (stageB mr sg).1 ≠ "infra" := by
  unfold stageB
  dsimp only
  split
  · decide
  · rcases headD_mem_or (sortDesc (stageB_scores mr sg).1.items) ("", 0) with hmem | hdef
    · exact items_first_ne_infra _ _ (mem_sortDesc.mp hmem)
    · rw [hdef]; decide

/-- `infer_base_type` never produces the label `"infra"`; the infra label can
only arise through the overrides in `classify`. -/
lemma infer_base_type_ne_infra (mr : MergeRequest) (files : List FileEntry)
    (feats : Features) : (infer_base_type mr files feats).1 ≠ "infra" := by
  unfold infer_base_type
  dsimp only
  cases hA : stageA (base_signals mr files feats) with
  | some r =>
    dsimp only
    have h1 : (r.1 = "chore" ∨ r.1 = "docs-only" ∨ r.1 = "test-only" ∨ r.1 = "bugfix" ∨
        r.1 = "refactor" ∨ r.1 = "perf-security") := stageA_first hA
    rcases h1 with h | h | h | h | h | h <;> (rw [h]; decide)
  | none =>
    dsimp only
    exact stageB_first_ne_infra mr (base_signals mr files feats)

/-- `{r with classified_at := t}` only changes the timestamp field. -/
lemma update_classified_at_final_type (r : ClassificationResult) (t : String) :
    ({ r with classified_at := t } : ClassificationResult).final_type = r.final_type := rfl

lemma update_classified_at_base_type (r : ClassificationResult) (t : String) :
    ({ r with classified_at := t } : ClassificationResult).base_type = r.base_type := rfl

lemma update_classified_at_is_infra_related (r : ClassificationResult) (t : String) :
    ({ r with classified_at := t } : ClassificationResult).is_infra_related =
      r.is_infra_related := rfl

lemma update_classified_at_infra_override_applied (r : ClassificationResult) (t : String) :
    ({ r with classified_at := t } : ClassificationResult).infra_override_applied =
      r.infra_override_applied := rfl

lemma update_classified_at_confidence (r : ClassificationResult) (t : String) :
    ({ r with classified_at := t } : ClassificationResult).classification_confidence =
      r.classification_confidence := rfl

lemma update_classified_at_needs_review (r : ClassificationResult) (t : String) :
    ({ r with classified_at := t } : ClassificationResult).needs_review = r.needs_review := rfl

lemma update_classified_at_rationale (r : ClassificationResult) (t : String) :
    ({ r with classified_at := t } : ClassificationResult).rationale = r.rationale := rfl

/-- A successful `classify` call returns the timestamped pure body applied to
the values of the required feature keys. -/
lemma classify_ok_elim {mr : MergeRequest} {files : List FileEntry} {feats : Features}
    {cfg : ClassificationConfig} {now : String} {r : ClassificationResult}
    (h : classify mr files feats cfg now = Except.ok r) :
    ∃ s comp lvl churn fc cc rcc rtc utc pfc,
      feats.infra_signal_score = some s ∧
      r = { buildResult mr files feats cfg s comp lvl churn fc cc rcc rtc utc pfc with
              classified_at := now } := by
  unfold classify at h
  cases hcore : classifyCore mr files feats cfg with
  | error e => rw [hcore] at h; simp [Except.map] at h
  | ok r0 =>
    rw [hcore] at h
    simp only [Except.map, Except.ok.injEq] at h
    obtain ⟨s, comp, lvl, c1, c2, c3, c4, c5, c6, c7, hs, _, _, _, _, _, _, _, _, _, hr0⟩ :=
      classifyCore_ok_inv hcore
    exact ⟨s, comp, lvl, c1, c2, c3, c4, c5, c6, c7, hs, by rw [← h, hr0]⟩

/-! ## Claim theorems -/

/-- C1: for every input to `classify`, if `infra_signal_score` is at least
`config.infra_strong_threshold`, the returned `final_type` is `"infra"`,
whatever the base-type classifier produced. -/
theorem strong_signal_forces_infra (mr : MergeRequest) (files : List FileEntry)
    (feats : Features) (cfg : ClassificationConfig) (now : String) (s : ℚ)
    (hs : feats.infra_signal_score = some s) (h : s ≥ cfg.infra_strong_threshold) :
    ∀ r, classify mr files feats cfg now = Except.ok r → r.final_type = "infra" := by
  intro r hr
  obtain ⟨s2, comp, lvl, c1, c2, c3, c4, c5, c6, c7, hs2, hr0⟩ := classify_ok_elim hr
  have hss : s2 = s := by rw [hs] at hs2; exact (Option.some.inj hs2).symm
  rw [hss] at hr0
  subst hr0
  rw [update_classified_at_final_type, buildResult_final_type]
  have hd : decide (s ≥ cfg.infra_strong_threshold) = true := decide_eq_true h
  rw [hd, Bool.true_or, if_pos rfl]

/-- C2: for every input whose base type is `bugfix` or `chore` and all of
whose infra-intent evidence is text-based (no `path:` item), the intent
override does not relabel the result: when the strong signal threshold is
not reached, `final_type` stays equal to the base type. -/
theorem text_only_intent_keeps_base (mr : MergeRequest) (files : List FileEntry)
    (feats : Features) (cfg : ClassificationConfig) (now : String) (s : ℚ)
    (hs : feats.infra_signal_score = some s)
    (hbase : (infer_base_type mr files feats).1 = "bugfix" ∨
      (infer_base_type mr files feats).1 = "chore")
    (hev : ∀ e ∈ (detect_infra_intent_override mr files (some feats)).2,
      strStartsWith e "path:" = false)
    (hlt : s < cfg.infra_strong_threshold) :
    ∀ r, classify mr files feats cfg now = Except.ok r → r.final_type = r.base_type := by
  intro r hr
  obtain ⟨s2, comp, lvl, c1, c2, c3, c4, c5, c6, c7, hs2, hr0⟩ := classify_ok_elim hr
  have hss : s2 = s := by rw [hs] at hs2; exact (Option.some.inj hs2).symm
  rw [hss] at hr0
  subst hr0
  rw [update_classified_at_final_type, update_classified_at_base_type,
    buildResult_final_type, buildResult_base_type]
  have hd : decide (s ≥ cfg.infra_strong_threshold) = false :=
    decide_eq_false (not_le.mpr hlt)
  have happ : intent_override_applied_of (infer_base_type mr files feats).1
      (detect_infra_intent_override mr files (some feats)) = false :=
    intent_override_applied_of_text_only hbase hev
  rw [hd, happ, Bool.false_or, if_neg (by simp)]

/-- C3: under the configuration contract `infra_weak_threshold <
infra_strong_threshold`, the returned `is_infra_related` is true whenever
`final_type` is `"infra"`, or the weak threshold is met, or the infra-intent
override fired (even when it was too weak to change `final_type`). -/
theorem is_infra_related_cover (mr : MergeRequest) (files : List FileEntry)
    (feats : Features) (cfg : ClassificationConfig) (now : String) (s : ℚ)
    (hs : feats.infra_signal_score = some s)
    (hcontract : cfg.infra_weak_threshold < cfg.infra_strong_threshold) :
    ∀ r, classify mr files feats cfg now = Except.ok r →
      (r.final_type = "infra" ∨ s ≥ cfg.infra_weak_threshold ∨
        (detect_infra_intent_override mr files (some feats)).1 = true) →
      r.is_infra_related = true := by
  intro r hr hcase
  obtain ⟨s2, comp, lvl, c1, c2, c3, c4, c5, c6, c7, hs2, hr0⟩ := classify_ok_elim hr
  have hss : s2 = s := by rw [hs] at hs2; exact (Option.some.inj hs2).symm
  rw [hss] at hr0
  subst hr0
  rw [update_classified_at_is_infra_related, buildResult_is_infra_related]
  rw [update_classified_at_final_type, buildResult_final_type] at hcase
  rcases hcase with hfin | hweak | hfired
  · by_cases hcond : (decide (s ≥ cfg.infra_strong_threshold) ||
        intent_override_applied_of (infer_base_type mr files feats).1
          (detect_infra_intent_override mr files (some feats))) = true
    · cases hb : decide (s ≥ cfg.infra_strong_threshold) with
      | true =>
        have hws : s ≥ cfg.infra_weak_threshold :=
          le_of_lt (lt_of_lt_of_le hcontract (of_decide_eq_true hb))
        rw [decide_eq_true hws, Bool.true_or]
      | false =>
        rw [hb, Bool.false_or] at hcond
        rw [intent_override_applied_of_true hcond, Bool.or_true]
    · rw [if_neg (by simpa using hcond)] at hfin
      exact absurd hfin (infer_base_type_ne_infra mr files feats)
  · rw [decide_eq_true hweak, Bool.true_or]
  · rw [hfired, Bool.or_true]

/-- C9: `classify` is deterministic up to the timestamp: two calls on the
same `(mr, files, features, config)` agree on every field other than
`classified_at`. -/
theorem classify_deterministic (mr : MergeRequest) (files : List FileEntry)
    (feats : Features) (cfg : ClassificationConfig) (t1 t2 : String) :
    (classify mr files feats cfg t1).map
        (fun r : ClassificationResult => { r with classified_at := "" }) =
      (classify mr files feats cfg t2).map
        (fun r : ClassificationResult => { r with classified_at := "" }) := by
  unfold classify
  cases classifyCore mr files feats cfg <;> rfl

/-- C10: the returned `infra_override_applied` is true exactly when
`final_type` is `"infra"`, and the base-type classifier itself never emits
`"infra"`: the infra label can only arise through the two override paths. -/
theorem infra_override_iff_final_infra (mr : MergeRequest) (files : List FileEntry)
    (feats : Features) (cfg : ClassificationConfig) (now : String) :
    (infer_base_type mr files feats).1 ≠ "infra" ∧
      ∀ r, classify mr files feats cfg now = Except.ok r →
        (r.infra_override_applied = true ↔ r.final_type = "infra") := by
  refine ⟨infer_base_type_ne_infra mr files feats, ?_⟩
  intro r hr
  obtain ⟨s, comp, lvl, c1, c2, c3, c4, c5, c6, c7, hs2, hr0⟩ := classify_ok_elim hr
  subst hr0
  rw [update_classified_at_final_type, update_classified_at_infra_override_applied,
    buildResult_final_type, buildResult_infra_override_applied]
  constructor
  · intro hflag
    rw [hflag, if_pos rfl]
  · intro hfin
    by_cases hcond : (decide (s ≥ cfg.infra_strong_threshold) ||
        intent_override_applied_of (infer_base_type mr files feats).1
          (detect_infra_intent_override mr files (some feats))) = true
    · exact hcond
    · rw [if_neg (by simpa using hcond)] at hfin
      exact absurd hfin (infer_base_type_ne_infra mr files feats)

/-- C4: every successful `classify` run returns a
`classification_confidence` inside `[0.30, 0.95]`. -/
theorem confidence_bounded (mr : MergeRequest) (files : List FileEntry)
    (feats : Features) (cfg : ClassificationConfig) (now : String) :
    ∀ r, classify mr files feats cfg now = Except.ok r →
      0.3 ≤ r.classification_confidence ∧ r.classification_confidence ≤ 0.95 := by
  intro r hr
  obtain ⟨s, comp, lvl, c1, c2, c3, c4, c5, c6, c7, hs, hr0⟩ := classify_ok_elim hr
  subst hr0
  rw [update_classified_at_confidence, buildResult_confidence]
  exact compute_confidence_fst_bounds _ _ _ _ _ _ _ _ _

/-- C5: the returned `needs_review` is exactly
`classification_confidence < needs_review_threshold`, and whenever it is
true the `why_needs_review` list in the rationale is non-empty. -/
theorem needs_review_consistent (mr : MergeRequest) (files : List FileEntry)
    (feats : Features) (cfg : ClassificationConfig) (now : String) :
    ∀ r, classify mr files feats cfg now = Except.ok r →
      (r.needs_review = true ↔ r.classification_confidence < cfg.needs_review_threshold) ∧
        (r.needs_review = true → r.rationale.why_needs_review ≠ []) := by
  intro r hr
  obtain ⟨s, comp, lvl, c1, c2, c3, c4, c5, c6, c7, hs, hr0⟩ := classify_ok_elim hr
  subst hr0
  constructor
  · rw [update_classified_at_needs_review, update_classified_at_confidence,
      buildResult_needs_review]
    exact ⟨of_decide_eq_true, decide_eq_true⟩
  · intro hnr
    rw [update_classified_at_needs_review] at hnr
    rw [update_classified_at_rationale, buildResult_why, hnr]
    exact why_needs_review_of_true_ne_nil _ _ _ _

/-- C7: a feature mapping missing any required numeric feature key makes
`classify` fail fast with a `KeyError` naming the first missing key, instead
of silently scoring the record with a zero default. -/
theorem missing_feature_key_fails_fast (mr : MergeRequest) (files : List FileEntry)
    (feats : Features) (cfg : ClassificationConfig) (now : String)
    (h : required_feature_keys_missing feats ≠ []) :
    classify mr files feats cfg now =
      Except.error ("KeyError: " ++ (required_feature_keys_missing feats).headD "") := by
  cases hs : feats.infra_signal_score with
  | none => simp [classify, classifyCore, required_feature_keys_missing, hs, Except.map]
  | some s =>
  cases hchurn : feats.churn with
  | none =>
    simp [classify, classifyCore, complexity_score, required_feature_keys_missing,
      hs, hchurn, Except.map]
  | some churn =>
  cases hfc : feats.files_changed with
  | none =>
    simp [classify, classifyCore, complexity_score, required_feature_keys_missing,
      hs, hchurn, hfc, Except.map]
  | some fc =>
  cases hcc : feats.commit_count with
  | none =>
    simp [classify, classifyCore, complexity_score, required_feature_keys_missing,
      hs, hchurn, hfc, hcc, Except.map]
  | some cc =>
  cases hrcc : feats.review_comment_count with
  | none =>
    simp [classify, classifyCore, complexity_score, required_feature_keys_missing,
      hs, hchurn, hfc, hcc, hrcc, Except.map]
  | some rcc =>
  cases hrtc : feats.review_thread_count with
  | none =>
    simp [classify, classifyCore, complexity_score, required_feature_keys_missing,
      hs, hchurn, hfc, hcc, hrcc, hrtc, Except.map]
  | some rtc =>
  cases hutc : feats.unresolved_thread_count with
  | none =>
    simp [classify, classifyCore, complexity_score, required_feature_keys_missing,
      hs, hchurn, hfc, hcc, hrcc, hrtc, hutc, Except.map]
  | some utc =>
  cases hpfc : feats.pipeline_failed_count with
  | none =>
    simp [classify, classifyCore, complexity_score, required_feature_keys_missing,
      hs, hchurn, hfc, hcc, hrcc, hrtc, hutc, hpfc, Except.map]
  | some pfc =>
  cases hlvl : feats.infra_signal_level with
  | none =>
    simp [classify, classifyCore, complexity_score, required_feature_keys_missing,
      hs, hchurn, hfc, hcc, hrcc, hrtc, hutc, hpfc, hlvl, Except.map]
  | some lvl =>
    exfalso
    apply h
    simp [required_feature_keys_missing, hs, hchurn, hfc, hcc, hrcc, hrtc, hutc, hpfc, hlvl]

/-- C8: in the Stage-B weighted fallback, the top-scoring category wins,
except when that category is not `"feature"`, its margin over the runner-up
is below `0.25` and feature is within `0.15` of the top score, in which case
`"feature"` wins. -/
theorem stageB_tiebreak (mr : MergeRequest) (files : List FileEntry) (feats : Features)
    (hA : stageA (base_signals mr files feats) = none) : stageB_claim mr files feats := by
  unfold stageB_claim
  refine ⟨fun p hp => sortDesc_headD_max _ _ p hp, ?_⟩
  unfold infer_base_type
  dsimp only
  rw [hA]
  rfl

/-- C6 (refuting the claim): `ClassificationConfig` construction performs no
validation.  A configuration with `infra_weak_threshold ≥
infra_strong_threshold` is accepted and flows into scoring, where it even
yields a record labelled `"infra"` that is not `is_infra_related`. -/
theorem invalid_config_accepted :
    invalidCfg.infra_weak_threshold ≥ invalidCfg.infra_strong_threshold ∧
      (classify plainMr plainFiles midFeats invalidCfg "t").toOption.map
          ClassificationResult.final_type = some "infra" ∧
      (classify plainMr plainFiles midFeats invalidCfg "t").toOption.map
          ClassificationResult.is_infra_related = some false := by
  refine ⟨by norm_num [invalidCfg], ?_, ?_⟩ <;> decide

/-! ## Witnesses -/

/-- Witness for C1 at a concrete strong-signal run. -/
theorem strong_signal_forces_infra_witness :
    exFeatsStrong.infra_signal_score = some 5 ∧ (5 : ℚ) ≥ exCfg.infra_strong_threshold ∧
      classifyOk (classify exMr exFiles exFeatsStrong exCfg "t") = true ∧
      (∀ r, classify exMr exFiles exFeatsStrong exCfg "t" = Except.ok r →
        r.final_type = "infra") :=
  ⟨rfl, by decide, by decide,
    strong_signal_forces_infra exMr exFiles exFeatsStrong exCfg "t" 5 rfl (by decide)⟩

/-- Witness for C2 at a concrete bugfix with text-only intent evidence. -/
theorem text_only_intent_keeps_base_witness :
    (infer_base_type bugMr bugFiles bugFeats).1 = "bugfix" ∧
      (detect_infra_intent_override bugMr bugFiles (some bugFeats)).2 = ["title:deploy"] ∧
      classifyOk (classify bugMr bugFiles bugFeats exCfg "t") = true ∧
      (∀ r, classify bugMr bugFiles bugFeats exCfg "t" = Except.ok r →
        r.final_type = r.base_type) :=
  ⟨by decide, by decide, by decide,
    text_only_intent_keeps_base bugMr bugFiles bugFeats exCfg "t" 0 rfl
      (Or.inl (by decide)) (by decide) (by decide)⟩

/-- Witness for C3 at a concrete strong-signal run. -/
theorem is_infra_related_cover_witness :
    exCfg.infra_weak_threshold < exCfg.infra_strong_threshold ∧
      classifyOk (classify exMr exFiles exFeatsStrong exCfg "t") = true ∧
      (∀ r, classify exMr exFiles exFeatsStrong exCfg "t" = Except.ok r →
        (r.final_type = "infra" ∨ (5 : ℚ) ≥ exCfg.infra_weak_threshold ∨
          (detect_infra_intent_override exMr exFiles (some exFeatsStrong)).1 = true) →
        r.is_infra_related = true) :=
  ⟨by decide, by decide,
    is_infra_related_cover exMr exFiles exFeatsStrong exCfg "t" 5 rfl (by decide)⟩

/-- Witness for C4 at a concrete run. -/
theorem confidence_bounded_witness :
    classifyOk (classify exMr exFiles exFeats exCfg "t") = true ∧
      (∀ r, classify exMr exFiles exFeats exCfg "t" = Except.ok r →
        0.3 ≤ r.classification_confidence ∧ r.classification_confidence ≤ 0.95) :=
  ⟨by decide, confidence_bounded exMr exFiles exFeats exCfg "t"⟩

/-- Witness for C5 at a concrete run. -/
theorem needs_review_consistent_witness :
    classifyOk (classify bugMr bugFiles bugFeats exCfg "t") = true ∧
      (∀ r, classify bugMr bugFiles bugFeats exCfg "t" = Except.ok r →
        (r.needs_review = true ↔ r.classification_confidence < exCfg.needs_review_threshold) ∧
          (r.needs_review = true → r.rationale.why_needs_review ≠ [])) :=
  ⟨by decide, needs_review_consistent bugMr bugFiles bugFeats exCfg "t"⟩

/-- Witness for C7: dropping `churn` makes `classify` raise the matching
`KeyError`. -/
theorem missing_feature_key_fails_fast_witness :
    required_feature_keys_missing exFeatsNoChurn ≠ [] ∧
      (required_feature_keys_missing exFeatsNoChurn).headD "" = "churn" ∧
      classify exMr exFiles exFeatsNoChurn exCfg "t" =
        Except.error ("KeyError: " ++ (required_feature_keys_missing exFeatsNoChurn).headD "") :=
  ⟨by decide, by decide,
    missing_feature_key_fails_fast exMr exFiles exFeatsNoChurn exCfg "t" (by decide)⟩

/-- Witness for C8 at a concrete Stage-B run. -/
theorem stageB_tiebreak_witness :
    stageA (base_signals exMr exFiles exFeats) = none ∧ stageB_claim exMr exFiles exFeats :=
  ⟨by decide, stageB_tiebreak exMr exFiles exFeats (by decide)⟩

/-- Witness for C10 at a concrete run. -/
theorem infra_override_iff_final_infra_witness :
    classifyOk (classify exMr exFiles exFeats exCfg "t") = true ∧
      ((infer_base_type exMr exFiles exFeats).1 ≠ "infra" ∧
        ∀ r, classify exMr exFiles exFeats exCfg "t" = Except.ok r →
          (r.infra_override_applied = true ↔ r.final_type = "infra")) :=
  ⟨by decide, infra_override_iff_final_infra exMr exFiles exFeats exCfg "t"⟩

end Prtool
